import Mathlib

/-!
Verification development for the DicoGIS metadata-extraction core.

The Python source (src/DicoGIS.py, src/DicoShapes.py, src/modules/InfosGDAL.py,
src/modules/georeaders/Infos_GeoPDF.py, src/modules/georeaders/geoutils.py) is
shallowly embedded below.  External effects are modelled as explicit inputs:

  * the GDAL/OGR library results (opened dataset handles, spatial-reference
    predicate answers, band statistics) are structure-valued parameters;
  * the filesystem is a list of existing file paths plus size/date oracles;
  * Python dictionaries are association lists with insertion-order append and
    in-place overwrite (`dictSet`);
  * a raised, uncaught Python exception is an explicit `Option String` /
    `Except String` outcome carrying the exception class name;
  * floating-point formatting/rounding of values that no claim inspects
    (geotransform entries, band statistics, pretty-printed sizes) is carried
    over integers; the numeric values themselves are never at issue below,
    only which record fields get populated and the control flow around them.
-/

/-! ## Python string / path primitives (posixpath semantics) -/

/-- Index of the last occurrence of `c` in `cs` (Python `str.rfind`, as an
`Option` instead of `-1`). -/
def lastIndexOfAux (c : Char) : List Char → Nat → Option Nat → Option Nat
  | [], _, acc => acc
  | x :: xs, i, acc => lastIndexOfAux c xs (i + 1) (if x == c then some i else acc)

def lastIndexOf (c : Char) (cs : List Char) : Option Nat :=
  lastIndexOfAux c cs 0 Option.none

/-- `os.path.basename` (posix): everything after the last slash. -/
def pyBasename (p : String) : String :=
  match lastIndexOf '/' p.toList with
  | Option.none => p
  | some i => ((p.toList).drop (i + 1)).asString

/-- `os.path.dirname` (posix): everything before the last slash, with
trailing slashes stripped unless the head is all slashes. -/
def pyDirname (p : String) : String :=
  match lastIndexOf '/' p.toList with
  | Option.none => ""
  | some i =>
    let head := (p.toList).take (i + 1)
    if head.all (fun c => c == '/') then head.asString
    else (head.reverse.dropWhile (fun c => c == '/')).reverse.asString

/-- The extension component of `os.path.splitext` (posix): the suffix from the
last dot of the final path component, empty when that dot only leads the
component. -/
def pySplitextExt (p : String) : String :=
  let cs := p.toList
  let fi : Nat := match lastIndexOf '/' cs with
    | some i => i + 1
    | Option.none => 0
  match lastIndexOf '.' cs with
  | Option.none => ""
  | some d =>
    if fi ≤ d ∧ ((cs.drop fi).take (d - fi)).any (fun c => c != '.') then
      (cs.drop d).asString
    else ""

/-- `os.path.join` for the two-argument posix case. -/
def pyJoin (a b : String) : String :=
  if b.toList.head? == some '/' then b
  else if a == "" ∨ a.toList.getLast? == some '/' then a ++ b
  else a ++ "/" ++ b

/-- Python slice `p[-n:]`. -/
def pyTakeLast (n : Nat) (s : String) : String :=
  ((s.toList).drop (s.length - n)).asString

/-- Python slice `s[a:b]` for character indices. -/
def pySlice (s : String) (a b : Nat) : String :=
  (((s.toList).drop a).take (b - a)).asString

/-- Python `str.capitalize`: first character upper-cased, the rest lower-cased. -/
def pyCapitalize (s : String) : String :=
  match s.toList with
  | [] => ""
  | c :: cs => (c.toUpper :: cs.map Char.toLower).asString

/-- Python `str.lower` (over the character list, so that proofs can evaluate
it). -/
def pyLower (s : String) : String := (s.toList.map Char.toLower).asString

/-- Python slice `s[:-n]`. -/
def pyDropRight (n : Nat) (s : String) : String :=
  (s.toList.take (s.toList.length - n)).asString

/-- Python `unicode(x)` applied to a value that is either a string or `None`. -/
def pyUnicode : Option String → String
  | Option.none => "None"
  | some s => s

/-- Python `range(a, b)` over integers, as a list of `Int`. -/
def pyRange (a b : Int) : List Int :=
  (List.range (b - a).toNat).map (fun k => a + (k : Int))

/-! ## Python dictionaries -/

/-- Values stored in the record dictionaries. -/
inductive PyVal where
  | pynone
  | s (v : String)
  | i (v : Int)
  | ls (v : List String)
  | li (v : List Int)
  | pair (a b : String)
  | d (v : List (String × PyVal))

abbrev Dict := List (String × PyVal)

/-- Python `dict[k] = v`: overwrite in place when the key exists, otherwise
append (insertion order preserved). -/
def dictSet (dd : Dict) (k : String) (v : PyVal) : Dict :=
  if dd.any (fun p => p.1 == k) then
    dd.map (fun p => if p.1 == k then (k, v) else p)
  else dd ++ [(k, v)]

def dictKeys (dd : Dict) : List String := dd.map Prod.fst

def dictGet (dd : Dict) (k : String) : Option PyVal :=
  (dd.find? (fun p => p.1 == k)).map Prod.snd

/-- `dict.get` over a plain string-to-string mapping (GDAL metadata). -/
def mdGet (md : List (String × String)) (k : String) : Option String :=
  (md.find? (fun p => p.1 == k)).map Prod.snd

theorem dictKeys_dictSet (dd : Dict) (k : String) (v : PyVal) (x : String) :
    x ∈ dictKeys (dictSet dd k v) ↔ x = k ∨ x ∈ dictKeys dd := by
  unfold dictSet dictKeys
  split
  · next h =>
    simp only [List.map_map, List.mem_map]
    constructor
    · rintro ⟨p, hp, rfl⟩
      by_cases hk : p.1 = k
      · left; simp [Function.comp_def, hk]
      · right; exact ⟨p, hp, by simp [Function.comp_def, hk]⟩
    · rintro (rfl | ⟨p, hp, rfl⟩)
      · rcases List.any_eq_true.mp h with ⟨q, hq, hqk⟩
        have hq1 : q.1 = x := by simpa using hqk
        exact ⟨q, hq, by simp [Function.comp_def, hq1]⟩
      · refine ⟨p, hp, ?_⟩
        by_cases hk : p.1 = k
        · simp [Function.comp_def, hk]
        · simp [Function.comp_def, hk]
  · simp [List.map_append, or_comm]

/-! ## The SRS classifier (InfosGDAL.infos_geom lines 116-134,
Infos_GeoPDF.infos_geom lines 341-360; the two files contain the identical
construction). -/

/-- The answers of the `osgeo.osr.SpatialReference` handle consumed by the
classifier: the six category predicates and the attribute values used for the
name / EPSG resolution. -/
structure SRSHandle where
  isCompound : Bool
  isGeocentric : Bool
  isGeographic : Bool
  isLocal : Bool
  isProjected : Bool
  isVertical : Bool
  attrPROJCS : Option String
  attrPROJECTION : Option String
  attrGEOGCS : Option String
  attrAUTHORITY1 : Option String

/-- The localisation dictionary `txt` / `text` (`dict.get` semantics). -/
abbrev Txt := String → Option String

/-- The `srsmetod` list literal, in source order. -/
def srsmetod (srs : SRSHandle) (txt : Txt) : List (Bool × Option String) :=
  [(srs.isCompound, txt "srs_comp"),
   (srs.isGeocentric, txt "srs_geoc"),
   (srs.isGeographic, txt "srs_geog"),
   (srs.isLocal, txt "srs_loca"),
   (srs.isProjected, txt "srs_proj"),
   (srs.isVertical, txt "srs_vert")]

/-- The classifier loop `for srsmet in srsmetod: if srsmet[0] == 1: typsrs =
srsmet[1]` — each match overwrites `typsrs`, there is no `break`.  `none`
models `typsrs` still unbound after the loop. -/
def srsTypeScan (srs : SRSHandle) (txt : Txt) : Option (Option String) :=
  (srsmetod srs txt).foldl (fun acc p => if p.1 then some p.2 else acc) Option.none

/-- `InfosRasters.infos_geom` then evaluates `unicode(typsrs)`; an unbound
`typsrs` raises `UnboundLocalError` (there is no guard in InfosGDAL.py). -/
def InfosRasters.srs_type (srs : SRSHandle) (txt : Txt) : Except String String :=
  match srsTypeScan srs txt with
  | some t => Except.ok (pyUnicode t)
  | Option.none => Except.error "UnboundLocalError"

/-- `ReadGeoPDF.infos_geom` wraps the same read in
`try/except UnboundLocalError`, substituting `txt.get('srs_nr')`. -/
def ReadGeoPDF.srs_type (srs : SRSHandle) (txt : Txt) : String :=
  match srsTypeScan srs txt with
  | some t => pyUnicode t
  | Option.none => pyUnicode (txt "srs_nr")

/-- Modelled from the spec: the first matching category in the fixed order
wins (spec section 4.4); used only to compare against the source behaviour. -/
def srsFirstMatchSpec (srs : SRSHandle) (txt : Txt) : Option (Option String) :=
  ((srsmetod srs txt).find? (fun p => p.1)).map (fun p => p.2)

/-- The last matching category in the fixed source order. -/
def srsLastMatch (srs : SRSHandle) (txt : Txt) : Option (Option String) :=
  (((srsmetod srs txt).reverse).find? (fun p => p.1)).map (fun p => p.2)

/-- A concrete localisation table (the standalone test block of both source
files populates exactly these labels). -/
def txtStd : Txt := fun k =>
  if k == "srs_comp" then some "Compound" else
  if k == "srs_geoc" then some "Geocentric" else
  if k == "srs_geog" then some "Geographic" else
  if k == "srs_loca" then some "Local" else
  if k == "srs_proj" then some "Projected" else
  if k == "srs_vert" then some "Vertical" else
  if k == "srs_nr" then some "NotReferenced" else Option.none

/-- A reference flagged both Geographic and Projected. -/
def srsGeogProj : SRSHandle :=
  { isCompound := false, isGeocentric := false, isGeographic := true,
    isLocal := false, isProjected := true, isVertical := false,
    attrPROJCS := some "WGS_84_UTM", attrPROJECTION := Option.none,
    attrGEOGCS := some "WGS_84", attrAUTHORITY1 := some "32618" }

/-- A reference matching none of the six categories. -/
def srsNoneMatch : SRSHandle :=
  { isCompound := false, isGeocentric := false, isGeographic := false,
    isLocal := false, isProjected := false, isVertical := false,
    attrPROJCS := Option.none, attrPROJECTION := Option.none,
    attrGEOGCS := Option.none, attrAUTHORITY1 := Option.none }

/-! ## Lexicographic string order (Python sorts strings by code point) -/

def charListLeB : List Char → List Char → Bool
  | [], _ => true
  | _ :: _, [] => false
  | a :: as, b :: bs => if a < b then true else if b < a then false else charListLeB as bs

/-- Python's `<=` on strings: lexicographic comparison by code point. -/
def pyStrLe (a b : String) : Prop := charListLeB a.toList b.toList = true

instance : DecidableRel pyStrLe := fun _ _ => instDecidableEqBool _ _

theorem charListLeB_total : ∀ as bs, charListLeB as bs = true ∨ charListLeB bs as = true
  | [], _ => Or.inl rfl
  | _ :: _, [] => Or.inr rfl
  | a :: as, b :: bs => by
    rcases lt_trichotomy a b with hab | hab | hab
    · left; simp [charListLeB, hab]
    · subst hab
      rcases charListLeB_total as bs with h | h
      · left; simp [charListLeB, h]
      · right; simp [charListLeB, h]
    · right; simp [charListLeB, hab]

theorem charListLeB_trans :
    ∀ as bs cs, charListLeB as bs = true → charListLeB bs cs = true →
      charListLeB as cs = true
  | [], _, _, _, _ => rfl
  | _ :: _, [], _, h, _ => by simp [charListLeB] at h
  | _ :: _, _ :: _, [], _, h2 => by simp [charListLeB] at h2
  | a :: as, b :: bs, c :: cs, h1, h2 => by
    simp only [charListLeB] at h1 h2 ⊢
    rcases lt_trichotomy c b with hcb | hcb | hcb
    · simp [hcb, lt_asymm hcb] at h2
    · subst hcb
      rcases lt_trichotomy a c with hac | hac | hac
      · simp [hac]
      · subst hac
        simp [lt_irrefl] at h1 h2 ⊢
        exact charListLeB_trans as bs cs h1 h2
      · simp [hac, lt_asymm hac] at h1
    · rcases lt_trichotomy a b with hab | hab | hab
      · simp [lt_trans hab hcb]
      · subst hab; simp [hcb]
      · simp [hab, lt_asymm hab] at h1

instance : IsTotal String pyStrLe :=
  ⟨fun a b => charListLeB_total a.toList b.toList⟩

instance : IsTrans String pyStrLe :=
  ⟨fun a b c => charListLeB_trans a.toList b.toList c.toList⟩

/-- Python `list.sort()` on string lists. -/
def pySort (l : List String) : List String := List.insertionSort pyStrLe l

/-! ## Claims about the SRS classifier (C1, C4) -/

/-- Claim C1, counterexample: the claim says the FIRST matching category in
the order Compound, Geocentric, Geographic, Local, Projected, Vertical wins,
so a reference flagged both Projected and Geographic must yield Geographic;
the source loop has no `break` and overwrites on every match, so it yields
Projected there, while the first-match rule of the spec yields Geographic. -/
theorem C1_first_match_counterexample :
    ReadGeoPDF.srs_type srsGeogProj txtStd = "Projected" ∧
    InfosRasters.srs_type srsGeogProj txtStd = Except.ok "Projected" ∧
    srsFirstMatchSpec srsGeogProj txtStd = some (some "Geographic") ∧
    ("Projected" : String) ≠ "Geographic" := by
  refine ⟨rfl, rfl, rfl, by decide⟩

/-- Claim C1, amended: the classifier tests the six categories in the fixed
order Compound, Geocentric, Geographic, Local, Projected, Vertical and the
LAST matching category in that order wins (each later match overwrites the
earlier one); in particular a reference flagged both Projected and Geographic
yields Projected.  When at most one category matches this coincides with the
first-match rule. -/
theorem C1_last_match_wins (srs : SRSHandle) (txt : Txt) :
    srsTypeScan srs txt = srsLastMatch srs txt := by
  obtain ⟨a, b, c, d, e, f, _, _, _, _⟩ := srs
  cases a <;> cases b <;> cases c <;> cases d <;> cases e <;> cases f <;> rfl

/-- Claim C4: for a reference matching none of the six categories the claim
(and spec) says the classifier terminates normally and emits "NotReferenced".
The GeoPDF copy of the classifier does exactly that, but the raster copy in
InfosGDAL.py has no guard around `unicode(typsrs)` and raises
UnboundLocalError instead: the code contradicts the spec's clear intent,
which its own sibling implementation realises. -/
theorem C4_notreferenced_raster_raises :
    InfosRasters.srs_type srsNoneMatch txtStd = Except.error "UnboundLocalError" ∧
    ReadGeoPDF.srs_type srsNoneMatch txtStd = "NotReferenced" :=
  ⟨rfl, rfl⟩

/-! ## The GDAL dataset handle and the OS oracles consumed by the readers -/

/-- What the opened GDAL dataset answers to the queries the readers issue.
Numeric values that are floats in GDAL (geotransform, band statistics) are
carried as integers: no claim inspects them. -/
structure Dataset where
  fileList : List String
  metadata : List (String × String)
  rasterXSize : Int
  rasterYSize : Int
  rasterCount : Int
  bandDataTypeName : String
  geotransform0 : Int
  geotransform1 : Int
  geotransform2 : Int
  geotransform3 : Int
  geotransform5 : Int
  description : String
  subDatasetsCount : Int
  gcpCount : Int
  bandMin : Int → Option Int
  bandMax : Int → Option Int
  bandNoData : Int → Option Int
  bandStats : Int → Except Unit (Option (Int × Int × Int × Int))
  bandScale : Int → Option Int
  bandUnitType : Int → String
  bandColorTableCount : Int → Option Int

/-- Filesystem / clock oracles (`os.path`, `time`). -/
structure Env where
  isfile : String → Bool
  isdir : String → Bool
  getsize : String → Nat
  mtimeStr : String → String
  ctimeStr : String → String

/-- `self.rast.GetFileList()`: an `AttributeError` when the handle is the
Python `None` left by a failed `gdal.Open`. -/
def pyGetFileList : Option Dataset → Except String (List String)
  | Option.none => Except.error "AttributeError"
  | some d => Except.ok d.fileList

/-! ## InfosRasters (src/modules/InfosGDAL.py) -/

/-- `InfosRasters.infos_basics`: dictionary state plus the exception, if one
escapes.  The three identity keys are written before the first use of the
dataset handle, so they survive the `AttributeError` of a `None` handle. -/
def InfosRasters.infos_basics (env : Env) (rast : Option Dataset)
    (rasterpath : String) (dico : Dict) : Dict × Option String :=
  let dico := dictSet dico "name" (.s (pyBasename rasterpath))
  let dico := dictSet dico "folder" (.s (pyDirname rasterpath))
  let dico := dictSet dico "title"
    (.s (pyCapitalize ((String.dropRight (pyBasename rasterpath) 4).replace "_" " ")))
  match pyGetFileList rast with
  | Except.error e => (dico, some e)
  | Except.ok fl =>
    match rast with
    | Option.none => (dico, some "AttributeError")
    | some dd =>
      let dico := dictSet dico "dependencies"
        (.ls ((fl.filter (fun fd => fd ≠ rasterpath)).map pyBasename))
      let dico := dictSet dico "compr_rate"
        (match mdGet dd.metadata "COMPRESSION_RATE_TARGET" with
         | some v => .s v
         | Option.none => .pynone)
      let dico := dictSet dico "color_ref"
        (match mdGet dd.metadata "COLORSPACE" with
         | some v => .s v
         | Option.none => .pynone)
      let dico := dictSet dico "format_version"
        (match mdGet dd.metadata "VERSION" with
         | some v => if v ≠ "" then .s ("(v" ++ v ++ ")") else .s ""
         | Option.none => .s "")
      let dico := dictSet dico "num_cols" (.i dd.rasterXSize)
      let dico := dictSet dico "num_rows" (.i dd.rasterYSize)
      let dico := dictSet dico "num_bands" (.i dd.rasterCount)
      if dd.rasterCount < 1 then
        (dico, some "AttributeError")
      else
        let dico := dictSet dico "data_type" (.s dd.bandDataTypeName)
        let dico := dictSet dico "date_actu" (.s (env.mtimeStr rasterpath))
        let dico := dictSet dico "date_crea" (.s (env.ctimeStr rasterpath))
        (dico, Option.none)

/-- `InfosRasters.infos_geom`. -/
def InfosRasters.infos_geom (dd : Dataset) (srs : SRSHandle) (txt : Txt)
    (dico : Dict) : Dict × Option String :=
  let dico := dictSet dico "xOrigin" (.i dd.geotransform0)
  let dico := dictSet dico "yOrigin" (.i dd.geotransform3)
  let dico := dictSet dico "pixelWidth" (.i dd.geotransform1)
  let dico := dictSet dico "pixelHeight" (.i dd.geotransform5)
  let dico := dictSet dico "orientation" (.i dd.geotransform2)
  match InfosRasters.srs_type srs txt with
  | Except.error e => (dico, some e)
  | Except.ok t =>
    let dico := dictSet dico "srs_type" (.s t)
    let dico := dictSet dico "srs"
      (.s (match srs.attrPROJCS with
           | some v => v.replace "_" " "
           | Option.none => (pyUnicode srs.attrPROJECTION).replace "_" " "))
    let dico := dictSet dico "EPSG" (.s (pyUnicode srs.attrAUTHORITY1))
    (dico, Option.none)

/-- `InfosRasters.infos_bands`. -/
def InfosRasters.infos_bands (dd : Dataset) (band : Int) (dico_bands : Dict) : Dict :=
  let toV : Option Int → PyVal := fun o => match o with
    | some v => .i v
    | Option.none => .pynone
  let dico_bands := dictSet dico_bands ("band" ++ toString band ++ "_Min") (toV (dd.bandMin band))
  let dico_bands := dictSet dico_bands ("band" ++ toString band ++ "_Max") (toV (dd.bandMax band))
  let dico_bands := dictSet dico_bands ("band" ++ toString band ++ "_NoData") (toV (dd.bandNoData band))
  dico_bands

/-- Outcome of `InfosRasters.__init__`: the two recipient dictionaries, the
`alert` counter, and the uncaught exception when one escapes the constructor. -/
structure RasterRun where
  dico : Dict
  bands : Dict
  alert : Nat
  exc : Option String

/-- `InfosRasters.__init__` (src/modules/InfosGDAL.py lines 40-72): a `None`
result of `gdal.Open` only prints a message and bumps `alert`; the
constructor then proceeds into `infos_basics`, which dereferences the `None`
handle.  There is no call to `erratum` anywhere in the constructor. -/
def InfosRasters.run (env : Env) (rast : Option Dataset) (srs : SRSHandle)
    (rasterpath tipo : String) (txt : Txt) : RasterRun :=
  let alert : Nat := if rast.isNone then 1 else 0
  let dico : Dict := dictSet [] "format" (.s tipo)
  match InfosRasters.infos_basics env rast rasterpath dico with
  | (d1, some e) => ⟨d1, [], alert, some e⟩
  | (d1, Option.none) =>
    match rast with
    | Option.none => ⟨d1, [], alert, some "AttributeError"⟩
    | some dd =>
      match InfosRasters.infos_geom dd srs txt d1 with
      | (d2, some e) => ⟨d2, [], alert, some e⟩
      | (d2, Option.none) =>
        let numBands : Int := match dictGet d2 "num_bands" with
          | some (.i n) => n
          | _ => 0
        let bands := (pyRange 1 numBands).foldl
          (fun bd i => InfosRasters.infos_bands dd i bd) []
        ⟨d2, bands, alert, Option.none⟩

/-- `InfosRasters.erratum` (lines 163-172): it reads `self.layer`, an
attribute the raster class never assigns, so any invocation raises
`AttributeError` after writing `name` and `folder`; the `error` key is never
reached.  `layerAttr` is the value of the `layer` attribute — always absent
(`none`) on `InfosRasters` instances. -/
def InfosRasters.erratum (layerAttr : Option Int) (dicolayer : Dict)
    (layerpath mess : String) : Dict × Option String :=
  let dicolayer := dictSet dicolayer "name" (.s (pyBasename layerpath))
  let dicolayer := dictSet dicolayer "folder" (.s (pyDirname layerpath))
  match layerAttr with
  | Option.none => (dicolayer, some "AttributeError")
  | some fieldCount =>
    let dicolayer := dictSet dicolayer "num_fields" (.i fieldCount)
    let dicolayer := dictSet dicolayer "error" (.s mess)
    (dicolayer, Option.none)

/-! ## Concrete fixtures used by counterexamples and witnesses -/

/-- A filesystem/clock oracle for concrete runs. -/
def envX : Env :=
  { isfile := fun _ => true, isdir := fun _ => false,
    getsize := fun _ => 2048,
    mtimeStr := fun _ => "2016-04-08", ctimeStr := fun _ => "2014-02-18" }

/-- A well-formed single-band dataset. -/
def dsBands1 : Dataset :=
  { fileList := ["/data/a.tif"],
    metadata := [("COMPRESSION_RATE_TARGET", "5"), ("COLORSPACE", "RGB"),
                 ("TITLE", "A map"), ("CREATOR", "c"), ("PRODUCER", "p"),
                 ("KEYWORDS", "k"), ("DPI", "300"), ("SUBJECT", "s"),
                 ("NEATLINE", "n"), ("CREATION_DATE", "D:20160408120000")],
    rasterXSize := 100, rasterYSize := 50, rasterCount := 1,
    bandDataTypeName := "Byte",
    geotransform0 := 10, geotransform1 := 1, geotransform2 := 0,
    geotransform3 := 20, geotransform5 := -1,
    description := "/data/a.tif", subDatasetsCount := 0, gcpCount := 0,
    bandMin := fun _ => some 0, bandMax := fun _ => some 255,
    bandNoData := fun _ => Option.none,
    bandStats := fun _ => Except.ok (some (0, 255, 127, 31)),
    bandScale := fun _ => some 1, bandUnitType := fun _ => "",
    bandColorTableCount := fun _ => Option.none }

/-! ## ReadGeoPDF (src/modules/georeaders/Infos_GeoPDF.py) -/

/-- An OGR vector layer of the geospatial PDF. -/
structure OgrLayer where
  name : String
  featureCount : Int
  fields : List (String × String)

/-- The OGR vector dataset handle. -/
structure VectorDS where
  dsName : String
  layers : List OgrLayer

/-- `ReadGeoPDF.sizeof` (lines 487-494): the source divides a float by 1024
per unit; carried over naturals here (the formatted string is never
inspected by any claim). -/
def ReadGeoPDF.sizeof : Nat → List String → String
  | os_size, [] => toString os_size ++ "  To"
  | os_size, u :: us =>
    if os_size < 1024 then toString os_size ++ " " ++ u
    else ReadGeoPDF.sizeof (os_size / 1024) us

def sizeCats : List String := ["octets", "Ko", "Mo", "Go"]

/-- `ReadGeoPDF.raster_basics` (lines 232-293).  Subscripting a missing
`CREATION_DATE` metadata value (`None`) raises `TypeError`;
`GetRasterBand(1)` on a band-less dataset yields `None` and the `.DataType`
access raises `AttributeError`. -/
def ReadGeoPDF.raster_basics (env : Env) (dd : Dataset) (pdfpath : String)
    (dico : Dict) : Dict × Option String :=
  let dico := dictSet dico "name" (.s (pyBasename pdfpath))
  let dico := dictSet dico "folder" (.s (pyDirname pdfpath))
  let dico := dictSet dico "title"
    (.s (pyCapitalize ((String.dropRight (pyBasename pdfpath) 4).replace "_" " ")))
  let dependencies := (dd.fileList.filter (fun fd => fd ≠ pdfpath)).map pyBasename
  let dico := dictSet dico "dependencies" (.ls dependencies)
  let total_size := ((dependencies ++ [pdfpath]).map env.getsize).sum
  let dico := dictSet dico "total_size" (.s (ReadGeoPDF.sizeof total_size sizeCats))
  let dico := dictSet dico "title"
    (match mdGet dd.metadata "TITLE" with
     | some v => .s v
     | Option.none => .pynone)
  let dico := dictSet dico "creator_prod"
    (.s (pyUnicode (mdGet dd.metadata "CREATOR") ++ " - " ++
         pyUnicode (mdGet dd.metadata "PRODUCER")))
  let strOrNone : Option String → PyVal := fun o => match o with
    | some v => .s v
    | Option.none => .pynone
  let dico := dictSet dico "keywords" (strOrNone (mdGet dd.metadata "KEYWORDS"))
  let dico := dictSet dico "dpi" (strOrNone (mdGet dd.metadata "DPI"))
  let dico := dictSet dico "subject" (strOrNone (mdGet dd.metadata "SUBJECT"))
  let dico := dictSet dico "neatline" (strOrNone (mdGet dd.metadata "NEATLINE"))
  let dico := dictSet dico "description" (.s dd.description)
  match mdGet dd.metadata "CREATION_DATE" with
  | Option.none => (dico, some "TypeError")
  | some creadate =>
    let dico := dictSet dico "date_crea"
      (.s (pySlice creadate 8 10 ++ "/" ++ pySlice creadate 6 8 ++ "/" ++
           pySlice creadate 2 6))
    let dico := dictSet dico "num_cols" (.i dd.rasterXSize)
    let dico := dictSet dico "num_rows" (.i dd.rasterYSize)
    let dico := dictSet dico "num_bands" (.i dd.rasterCount)
    if dd.rasterCount < 1 then
      (dico, some "AttributeError")
    else
      let dico := dictSet dico "data_type" (.s dd.bandDataTypeName)
      let dico := dictSet dico "subdatasets_count" (.i dd.subDatasetsCount)
      let dico := dictSet dico "gcp_count" (.i dd.gcpCount)
      let dico := dictSet dico "date_actu" (.s (env.mtimeStr pdfpath))
      (dico, Option.none)

/-- `ReadGeoPDF.infos_geom` (lines 324-413); the float `round(x, 3)` of the
pixel sizes is carried as the integer itself. -/
def ReadGeoPDF.infos_geom (dd : Dataset) (srs : SRSHandle) (txt : Txt)
    (dico : Dict) : Dict :=
  let dico := dictSet dico "xOrigin" (.i dd.geotransform0)
  let dico := dictSet dico "yOrigin" (.i dd.geotransform3)
  let dico := dictSet dico "pixelWidth" (.i dd.geotransform1)
  let dico := dictSet dico "pixelHeight" (.i dd.geotransform5)
  let dico := dictSet dico "orientation" (.i dd.geotransform2)
  let dico := dictSet dico "srs_type" (.s (ReadGeoPDF.srs_type srs txt))
  let dico := dictSet dico "srs"
    (.s (if srs.isProjected then
           match srs.attrPROJCS with
           | some v => v.replace "_" " "
           | Option.none => (pyUnicode srs.attrPROJECTION).replace "_" " "
         else
           match srs.attrGEOGCS with
           | some v => v.replace "_" " "
           | Option.none => (pyUnicode srs.attrPROJECTION).replace "_" " "))
  let dico := dictSet dico "EPSG" (.s (pyUnicode srs.attrAUTHORITY1))
  dico

/-- `ReadGeoPDF.infos_bands` (lines 415-476): a raising `GetStatistics`
returns the band dictionary untouched; a falsy statistics result skips the
four statistic keys but still writes NoData/Scale/UnitType/CTabCount.  The
source checks `GetMinimum()` (not `GetMaximum()`) before choosing the
maximum, and that quirk is kept. -/
def ReadGeoPDF.infos_bands (dd : Dataset) (band : Int) (dico_bands : Dict) : Dict :=
  match dd.bandStats band with
  | Except.error _ => dico_bands
  | Except.ok stats =>
    let dico_bands :=
      match stats with
      | some st =>
        let dico_bands := dictSet dico_bands ("band" ++ toString band ++ "_Min")
          (match dd.bandMin band with
           | Option.none => .i st.1
           | some v => .i v)
        let dico_bands := dictSet dico_bands ("band" ++ toString band ++ "_Max")
          (match dd.bandMin band with
           | Option.none => .i st.2.1
           | some _ =>
             match dd.bandMax band with
             | some v => .i v
             | Option.none => .pynone)
        let dico_bands := dictSet dico_bands ("band" ++ toString band ++ "_Mean") (.i st.2.2.1)
        let dico_bands := dictSet dico_bands ("band" ++ toString band ++ "_Sdev") (.i st.2.2.2)
        dico_bands
      | Option.none => dico_bands
    let dico_bands := dictSet dico_bands ("band" ++ toString band ++ "_NoData")
      (match dd.bandNoData band with
       | some v => .i v
       | Option.none => .pynone)
    let dico_bands := dictSet dico_bands ("band" ++ toString band ++ "_Scale")
      (match dd.bandScale band with
       | some v => .i v
       | Option.none => .pynone)
    let dico_bands := dictSet dico_bands ("band" ++ toString band ++ "_UnitType")
      (.s (dd.bandUnitType band))
    let dico_bands := dictSet dico_bands ("band" ++ toString band ++ "_CTabCount")
      (match dd.bandColorTableCount band with
       | Option.none => .i 0
       | some n => .i n)
    dico_bands

/-- `ReadGeoPDF.infos_fields` (lines 478-485). -/
def ReadGeoPDF.infos_fields (fields : List (String × String)) (dico_fields : Dict) : Dict :=
  fields.foldl (fun dd p => dictSet dd p.1 (.s p.2)) dico_fields

/-- `ReadGeoPDF.vector_basics` (lines 295-322); the UnicodeDecodeError branch
of the title read is outside the model (strings arrive decoded). -/
def ReadGeoPDF.vector_basics (layer_obj : OgrLayer) (dico_layer : Dict) : Dict :=
  let dico_layer := dictSet dico_layer "title" (.s layer_obj.name)
  let dico_layer := dictSet dico_layer "num_obj" (.i layer_obj.featureCount)
  let dico_layer := dictSet dico_layer "num_fields" (.i (layer_obj.fields.length : Int))
  let dico_layer := dictSet dico_layer "fields"
    (.d (ReadGeoPDF.infos_fields layer_obj.fields []))
  dico_layer

/-- `ReadGeoPDF.erratum` (lines 496-503). -/
def ReadGeoPDF.erratum (dico_geopdf : Dict) (pdfpath mess : String) : Dict :=
  let dico_geopdf := dictSet dico_geopdf "name" (.s (pyBasename pdfpath))
  let dico_geopdf := dictSet dico_geopdf "folder" (.s (pyDirname pdfpath))
  let dico_geopdf := dictSet dico_geopdf "error" (.s mess)
  dico_geopdf

/-- Outcome of `ReadGeoPDF.__init__`. -/
structure GeoPDFRun where
  dico : Dict
  alert : Nat
  exc : Option String

/-- The raster half of `ReadGeoPDF.__init__` (lines 161-180): `format`,
`raster_basics`, `infos_geom`, the per-band nested dictionaries, and the
`err_gdal` pair taken from the installed error handler's state
(`gdalErrT`, `gdalErrM`).  Returns the dictionary and the escaping
exception, if any. -/
def ReadGeoPDF.rasterPhase (env : Env) (dd : Dataset) (srs : SRSHandle)
    (pdfpath tipo : String) (txt : Txt) (gdalErrT gdalErrM : String) :
    Dict × Option String :=
  let dico : Dict := dictSet [] "format" (.s tipo)
  match ReadGeoPDF.raster_basics env dd pdfpath dico with
  | (d1, some e) => (d1, some e)
  | (d1, Option.none) =>
    let d2 := ReadGeoPDF.infos_geom dd srs txt d1
    let d3 := (pyRange 1 dd.rasterCount).foldl
      (fun acc band_idx =>
        let dico_band := ReadGeoPDF.infos_bands dd band_idx []
        dictSet acc ("band_" ++ toString band_idx) (.d dico_band)) d2
    let d4 := dictSet d3 "err_gdal" (.pair gdalErrT gdalErrM)
    (d4, Option.none)

/-- The vector half of `ReadGeoPDF.__init__` (lines 191-230).  The source
stores the (still empty) name/index list objects in the dictionary and then
appends into them while looping; the dictionary aliases those lists, so the
final values are recorded at the original insertion points. -/
def ReadGeoPDF.vectorPhase (geopdf_v : VectorDS) (dico : Dict) : Dict :=
  let dico := dictSet dico "layers_count" (.i (geopdf_v.layers.length : Int))
  let li_layers_names := geopdf_v.layers.map (fun l => l.name)
  let li_layers_idx := (List.range geopdf_v.layers.length).map (fun i => (i : Int))
  let dico := dictSet dico "layers_names" (.ls li_layers_names)
  let dico := dictSet dico "layers_idx" (.li li_layers_idx)
  let dico := dictSet dico "total_fields" (.i 0)
  let dico := dictSet dico "total_objs" (.i 0)
  let st := (geopdf_v.layers.enum).foldl
    (fun (st : Dict × Int × Int) p =>
      let (dico, total_fields, total_objs) := st
      let layer := p.2
      let dico_layer : Dict := dictSet [] "parent_name" (.s (pyBasename geopdf_v.dsName))
      let dico_layer := ReadGeoPDF.vector_basics layer dico_layer
      let title := match dictGet dico_layer "title" with
        | some (.s t) => t
        | _ => ""
      let dico := dictSet dico (toString p.1 ++ "_" ++ title) (.d dico_layer)
      let total_fields := total_fields +
        (match dictGet dico_layer "num_fields" with
         | some (.i n) => n
         | _ => 0)
      let total_objs := total_objs +
        (match dictGet dico_layer "num_obj" with
         | some (.i n) => n
         | _ => 0)
      (dico, total_fields, total_objs))
    (dico, 0, 0)
  let dico := dictSet st.1 "total_fields" (.i st.2.1)
  let dico := dictSet dico "total_objs" (.i st.2.2)
  dico

/-- `ReadGeoPDF.__init__` (lines 123-230): a raising or `None`-returning
`gdal.Open` records an erratum and returns at once — the vector view is
never consulted on that path.  A raising `ogr.Open` records an erratum on
top of the already-filled dictionary and returns. -/
def ReadGeoPDF.run (env : Env) (rasterOpen : Except String (Option Dataset))
    (srs : SRSHandle) (vectorOpen : Except String VectorDS)
    (pdfpath tipo : String) (txt : Txt) (gdalErrT gdalErrM : String) : GeoPDFRun :=
  match rasterOpen with
  | Except.error _ => ⟨ReadGeoPDF.erratum [] pdfpath "err_incomp", 1, Option.none⟩
  | Except.ok Option.none => ⟨ReadGeoPDF.erratum [] pdfpath "err_incomp", 1, Option.none⟩
  | Except.ok (some dd) =>
    match ReadGeoPDF.rasterPhase env dd srs pdfpath tipo txt gdalErrT gdalErrM with
    | (d1, some e) => ⟨d1, 0, some e⟩
    | (d1, Option.none) =>
      match vectorOpen with
      | Except.error _ => ⟨ReadGeoPDF.erratum d1 pdfpath "err_corrupt", 1, Option.none⟩
      | Except.ok geopdf_v => ⟨ReadGeoPDF.vectorPhase geopdf_v d1, 0, Option.none⟩

/-! ## Utils (src/modules/georeaders/geoutils.py) -/

/-- `Utils.sizeof` (geoutils.py lines 54-82): on an existing file path the
source appends `source_path` to the caller's `dependencies` list, sums the
sizes, then `pop(-1)`s the appended entry; on a directory it sums the walk;
otherwise it returns `None`.  The result is the prettified size together
with the final contents of the caller's list (the unit loop is the same
float loop as `ReadGeoPDF.sizeof`, carried over naturals). -/
def Utils.sizeof (env : Env) (walkFiles : String → List String)
    (source_path : String) (dependencies : List String) :
    Option String × List String :=
  if env.isfile source_path then
    let deps := dependencies ++ [source_path]
    let total_size := (deps.map env.getsize).sum
    let deps := deps.dropLast
    (some (ReadGeoPDF.sizeof total_size sizeCats), deps)
  else if env.isdir source_path then
    let total_size :=
      (((walkFiles source_path).filter env.isfile).map env.getsize).sum
    (some (ReadGeoPDF.sizeof total_size sizeCats), dependencies)
  else (Option.none, dependencies)

/-- `Utils.erratum` (geoutils.py lines 84-99): `flat` mode writes `name`,
`folder`, `error`; `postgis` mode writes `name` (from `mess_type`) and
`error`; any other mode falls through to `pass`, returning Python `None`. -/
def Utils.erratum (ds_type : String) (ctner : Dict) (src : String)
    (mess_type : Int) (mess : String) : Option Dict :=
  if ds_type == "flat" then
    let ctner := dictSet ctner "name" (.s (pyBasename src))
    let ctner := dictSet ctner "folder" (.s (pyDirname src))
    let ctner := dictSet ctner "error" (.s mess)
    some ctner
  else if ds_type == "postgis" then
    let ctner := dictSet ctner "name" (.i mess_type)
    let ctner := dictSet ctner "error" (.s mess)
    some ctner
  else Option.none

/-- A vector view with one layer. -/
def vdsOne : VectorDS :=
  { dsName := "/data/a.pdf",
    layers := [{ name := "roads", featureCount := 7,
                 fields := [("id", "Integer"), ("name", "String")] }] }

/-! ## Claims about the readers (C2, C3, C8, C9, C10) -/

/-- Claim C2: the claim (and spec section 4.3) says a BandRecord is populated
for each band index from 1 to band_count INCLUSIVE.  Both readers loop over
`range(1, band_count)`, which stops at band_count - 1: on the single-band
dataset `dsBands1` (band_count = 1, recorded in the dictionary) the raster
reader produces no band entry at all, and the container reader's record has
no "band_1" key, although both runs complete without error. -/
theorem C2_last_band_missing :
    (InfosRasters.run envX (some dsBands1) srsGeogProj "/data/a.tif" ".tif" txtStd).exc = Option.none ∧
    dictGet (InfosRasters.run envX (some dsBands1) srsGeogProj "/data/a.tif" ".tif" txtStd).dico
      "num_bands" = some (PyVal.i 1) ∧
    (InfosRasters.run envX (some dsBands1) srsGeogProj "/data/a.tif" ".tif" txtStd).bands = [] ∧
    (ReadGeoPDF.run envX (Except.ok (some dsBands1)) srsGeogProj (Except.ok vdsOne)
      "/data/a.pdf" ".pdf" txtStd "None" "").exc = Option.none ∧
    "band_1" ∉ dictKeys (ReadGeoPDF.run envX (Except.ok (some dsBands1)) srsGeogProj
      (Except.ok vdsOne) "/data/a.pdf" ".pdf" txtStd "None" "").dico := by
  refine ⟨rfl, rfl, rfl, rfl, by decide⟩

/-- Claim C3: on an unopenable raster the claim says the Raster Reader does
not raise, delegates to the Erratum Builder and returns.  The GeoPDF reader
does exactly that, but `InfosRasters.__init__` only bumps `alert` when
`gdal.Open` returns `None` and then calls `infos_basics` on the `None`
handle: the constructor raises `AttributeError` at `GetFileList` and no
`error` key is ever written (its `erratum` method is never invoked). -/
theorem C3_raster_open_failure_raises :
    (InfosRasters.run envX Option.none srsGeogProj "/data/a.ecw" ".ecw" txtStd).exc
      = some "AttributeError" ∧
    "error" ∉ dictKeys (InfosRasters.run envX Option.none srsGeogProj
      "/data/a.ecw" ".ecw" txtStd).dico ∧
    (ReadGeoPDF.run envX (Except.error "RuntimeError") srsGeogProj (Except.ok vdsOne)
      "/data/a.pdf" ".pdf" txtStd "None" "").exc = Option.none ∧
    dictKeys (ReadGeoPDF.run envX (Except.error "RuntimeError") srsGeogProj
      (Except.ok vdsOne) "/data/a.pdf" ".pdf" txtStd "None" "").dico
      = ["name", "folder", "error"] := by
  refine ⟨rfl, by decide, rfl, rfl⟩

/-- Claim C8: the claim (and spec section 4.5) says an Erratum Builder call
on a fresh record populates exactly `name`, `folder`, `error`.  The
`Utils.erratum` flat mode and `ReadGeoPDF.erratum` do exactly that, but
`InfosRasters.erratum` reads `self.layer.GetLayerDefn()` — `layer` is an
attribute the raster class never assigns — so it raises `AttributeError`
after writing `name` and `folder`, never reaching the `error` assignment
(its code would also write `num_fields`, a non-identity field). -/
theorem C8_erratum_fields :
    Utils.erratum "flat" [] "/data/a.shp" 1 "err_incomp"
      = some [("name", PyVal.s "a.shp"), ("folder", PyVal.s "/data"),
              ("error", PyVal.s "err_incomp")] ∧
    ReadGeoPDF.erratum [] "/data/a.pdf" "err_incomp"
      = [("name", PyVal.s "a.pdf"), ("folder", PyVal.s "/data"),
         ("error", PyVal.s "err_incomp")] ∧
    InfosRasters.erratum Option.none [] "/data/a.tif" "err_incomp"
      = ([("name", PyVal.s "a.tif"), ("folder", PyVal.s "/data")],
         some "AttributeError") := by
  refine ⟨rfl, rfl, rfl⟩

/-- Claim C9, counterexample: the claim says that when the raster view of a
geospatial PDF fails to open, the vector layers are still enumerated.  With
a failing `gdal.Open` and a vector view holding one layer, the constructor
returns right after the erratum: the record carries only the three erratum
fields and no `layers_count`. -/
theorem C9_raster_failure_skips_vector :
    vdsOne.layers.length = 1 ∧
    dictKeys (ReadGeoPDF.run envX (Except.error "RuntimeError") srsGeogProj
      (Except.ok vdsOne) "/data/a.pdf" ".pdf" txtStd "None" "").dico
      = ["name", "folder", "error"] ∧
    "layers_count" ∉ dictKeys (ReadGeoPDF.run envX (Except.error "RuntimeError")
      srsGeogProj (Except.ok vdsOne) "/data/a.pdf" ".pdf" txtStd "None" "").dico := by
  refine ⟨rfl, rfl, by decide⟩

/-- Claim C10: `Utils.sizeof` on an existing file appends the source path to
the caller's `dependencies` list, sums, and pops the appended entry again:
the caller's list (and hence the shared default list across calls) ends the
call with exactly its prior contents. -/
theorem C10_sizeof_restores_dependencies (env : Env)
    (walkFiles : String → List String) (source_path : String)
    (dependencies : List String) (h : env.isfile source_path = true) :
    (Utils.sizeof env walkFiles source_path dependencies).2 = dependencies := by
  simp [Utils.sizeof, h, List.dropLast_concat]

/-- Witness for C10 at a concrete input. -/
theorem C10_sizeof_restores_dependencies_witness :
    envX.isfile "/data/a.shp" = true ∧
    (Utils.sizeof envX (fun _ => []) "/data/a.shp" ["/data/a.dbf"]).2
      = ["/data/a.dbf"] :=
  ⟨rfl, C10_sizeof_restores_dependencies envX (fun _ => []) "/data/a.shp"
    ["/data/a.dbf"] rfl⟩

/-! ## Dictionary lookup lemmas used for the container-reader claim -/

theorem find_map_dictSet (dd : Dict) (k : String) (v : PyVal)
    (h : dd.any (fun p => p.1 == k) = true) :
    (dd.map (fun p => if p.1 == k then (k, v) else p)).find? (fun p => p.1 == k)
      = some (k, v) := by
  induction dd with
  | nil => simp at h
  | cons p ps ih =>
    by_cases hp : p.1 = k
    · rw [List.map_cons, if_pos (by simp [hp] : (p.1 == k) = true),
        List.find?_cons_of_pos _ (by simp)]
    · have h2 : ps.any (fun q => q.1 == k) = true := by
        simpa [List.any_cons, hp] using h
      rw [List.map_cons, if_neg (by simp [hp]),
        List.find?_cons_of_neg _ (by simp [hp])]
      exact ih h2

theorem find_map_dictSet_ne (dd : Dict) (k : String) (v : PyVal) (x : String)
    (hxk : x ≠ k) :
    (dd.map (fun p => if p.1 == k then (k, v) else p)).find? (fun p => p.1 == x)
      = dd.find? (fun p => p.1 == x) := by
  have hkx : k ≠ x := Ne.symm hxk
  induction dd with
  | nil => rfl
  | cons p ps ih =>
    by_cases hp : p.1 = k
    · rw [List.map_cons, if_pos (by simp [hp] : (p.1 == k) = true)]
      rw [List.find?_cons_of_neg _ (by simp [hkx])]
      rw [List.find?_cons_of_neg _ (by simp [hp, hkx])]
      exact ih
    · by_cases hpx : p.1 = x
      · rw [List.map_cons, if_neg (by simp [hp])]
        rw [List.find?_cons_of_pos _ (by simp [hpx])]
        rw [List.find?_cons_of_pos _ (by simp [hpx])]
      · rw [List.map_cons, if_neg (by simp [hp])]
        rw [List.find?_cons_of_neg _ (by simp [hpx])]
        rw [List.find?_cons_of_neg _ (by simp [hpx])]
        exact ih

theorem dictGet_dictSet (dd : Dict) (k : String) (v : PyVal) (x : String) :
    dictGet (dictSet dd k v) x = if x = k then some v else dictGet dd x := by
  unfold dictSet dictGet
  split
  · next hany =>
    by_cases hxk : x = k
    · subst hxk
      rw [find_map_dictSet dd x v hany]
      simp
    · rw [find_map_dictSet_ne dd k v x hxk]
      simp [hxk]
  · next hany =>
    by_cases hxk : x = k
    · subst hxk
      have hnone : dd.find? (fun p => p.1 == x) = Option.none := by
        rw [List.find?_eq_none]
        intro p hp hpx
        exact hany (List.any_eq_true.mpr ⟨p, hp, hpx⟩)
      simp [List.find?_append, hnone, List.find?]
    · have hone : (([(k, v)] : Dict)).find? (fun p => p.1 == x) = Option.none := by
        simp [List.find?, beq_eq_false_iff_ne.mpr (Ne.symm hxk)]
      simp [List.find?_append, hone, hxk]

theorem dictSetFold_mem {α : Type} (l : List α) (kf : α → String) (vf : α → PyVal)
    (d0 : Dict) (x : String) :
    x ∈ dictKeys (l.foldl (fun acc a => dictSet acc (kf a) (vf a)) d0) ↔
      (∃ a ∈ l, x = kf a) ∨ x ∈ dictKeys d0 := by
  induction l generalizing d0 with
  | nil => simp
  | cons a as ih =>
    simp only [List.foldl_cons, ih, dictKeys_dictSet, List.mem_cons]
    constructor
    · rintro (⟨b, hb, rfl⟩ | rfl | hx)
      · exact Or.inl ⟨b, Or.inr hb, rfl⟩
      · exact Or.inl ⟨a, Or.inl rfl, rfl⟩
      · exact Or.inr hx
    · rintro (⟨b, rfl | hb, rfl⟩ | hx)
      · exact Or.inr (Or.inl rfl)
      · exact Or.inl ⟨b, hb, rfl⟩
      · exact Or.inr (Or.inr hx)

/-- A band key never collides with the vector-phase `layers_count` key. -/
theorem band_key_ne_layers (s : String) : ("band_" ++ s) ≠ "layers_count" := by
  intro h
  have h2 : ("band_" ++ s).data.head? = ("layers_count" : String).data.head? :=
    congrArg (fun t : String => t.data.head?) h
  rw [String.data_append] at h2
  simp at h2

theorem raster_basics_no_layers_count (env : Env) (dd : Dataset) (pdfpath : String)
    (dico : Dict) (h : "layers_count" ∉ dictKeys dico) :
    "layers_count" ∉ dictKeys (ReadGeoPDF.raster_basics env dd pdfpath dico).1 := by
  unfold ReadGeoPDF.raster_basics
  rcases hcd : mdGet dd.metadata "CREATION_DATE" with _ | creadate
  · simp [dictKeys_dictSet, h]
  · by_cases hrc : dd.rasterCount < 1
    · simp [hrc, dictKeys_dictSet, h]
    · simp [hrc, dictKeys_dictSet, h]

theorem infos_geom_no_layers_count (dd : Dataset) (srs : SRSHandle) (txt : Txt)
    (dico : Dict) (h : "layers_count" ∉ dictKeys dico) :
    "layers_count" ∉ dictKeys (ReadGeoPDF.infos_geom dd srs txt dico) := by
  simp [ReadGeoPDF.infos_geom, dictKeys_dictSet, h]

theorem rasterPhase_no_layers_count (env : Env) (dd : Dataset) (srs : SRSHandle)
    (pdfpath tipo : String) (txt : Txt) (gT gM : String) :
    "layers_count" ∉
      dictKeys (ReadGeoPDF.rasterPhase env dd srs pdfpath tipo txt gT gM).1 := by
  have h0 : "layers_count" ∉ dictKeys (dictSet [] "format" (PyVal.s tipo)) := by
    simp [dictSet, dictKeys]
  simp only [ReadGeoPDF.rasterPhase]
  rcases hrb : ReadGeoPDF.raster_basics env dd pdfpath (dictSet [] "format" (PyVal.s tipo))
    with ⟨d1, exc⟩
  have hd1 : "layers_count" ∉ dictKeys d1 := by
    have hx := raster_basics_no_layers_count env dd pdfpath _ h0
    rw [hrb] at hx
    exact hx
  cases exc with
  | some e => simpa using hd1
  | none =>
    have h2 : "layers_count" ∉ dictKeys (ReadGeoPDF.infos_geom dd srs txt d1) :=
      infos_geom_no_layers_count dd srs txt d1 hd1
    have h3 : "layers_count" ∉
        dictKeys ((pyRange 1 dd.rasterCount).foldl
          (fun acc band_idx =>
            dictSet acc ("band_" ++ toString band_idx)
              (.d (ReadGeoPDF.infos_bands dd band_idx [])))
          (ReadGeoPDF.infos_geom dd srs txt d1)) := by
      rw [dictSetFold_mem]
      rintro (⟨b, _, hb⟩ | hx)
      · exact band_key_ne_layers (toString b) hb.symm
      · exact h2 hx
    simp [dictKeys_dictSet, h3]

/-- An empty vector view. -/
def vdsEmpty : VectorDS := { dsName := "/data/a.pdf", layers := [] }

/-- Claim C9, amended: a failure to open the VECTOR view is reported via the
Erratum Builder on top of the already-extracted raster record — every field
other than name/folder/error keeps the value the raster phase gave it — but
a failure to open the RASTER view records an erratum and returns
immediately: the result is independent of the vector view, carries only the
three erratum fields, and no vector layer is enumerated. -/
theorem C9_amended (env : Env) (srs : SRSHandle) (pdfpath tipo : String)
    (txt : Txt) (gT gM e m : String) (v1 v2 : VectorDS) (dd : Dataset)
    (d1 : Dict) (x : String)
    (hphase : ReadGeoPDF.rasterPhase env dd srs pdfpath tipo txt gT gM
      = (d1, Option.none))
    (hx1 : x ≠ "name") (hx2 : x ≠ "folder") (hx3 : x ≠ "error") :
    ReadGeoPDF.run env (Except.error e) srs (Except.ok v1) pdfpath tipo txt gT gM
      = ReadGeoPDF.run env (Except.error e) srs (Except.ok v2) pdfpath tipo txt gT gM ∧
    dictKeys (ReadGeoPDF.run env (Except.error e) srs (Except.ok v1)
      pdfpath tipo txt gT gM).dico = ["name", "folder", "error"] ∧
    ReadGeoPDF.run env (Except.ok (some dd)) srs (Except.error m) pdfpath tipo txt gT gM
      = ⟨ReadGeoPDF.erratum d1 pdfpath "err_corrupt", 1, Option.none⟩ ∧
    dictGet (ReadGeoPDF.run env (Except.ok (some dd)) srs (Except.error m)
      pdfpath tipo txt gT gM).dico x = dictGet d1 x ∧
    "layers_count" ∉ dictKeys (ReadGeoPDF.run env (Except.ok (some dd)) srs
      (Except.error m) pdfpath tipo txt gT gM).dico := by
  have hrun : ReadGeoPDF.run env (Except.ok (some dd)) srs (Except.error m)
      pdfpath tipo txt gT gM
      = ⟨ReadGeoPDF.erratum d1 pdfpath "err_corrupt", 1, Option.none⟩ := by
    simp only [ReadGeoPDF.run, hphase]
  refine ⟨rfl, rfl, hrun, ?_, ?_⟩
  · rw [hrun]
    simp [ReadGeoPDF.erratum, dictGet_dictSet, hx1, hx2, hx3]
  · rw [hrun]
    have hd1 : "layers_count" ∉ dictKeys d1 := by
      have hx := rasterPhase_no_layers_count env dd srs pdfpath tipo txt gT gM
      rw [hphase] at hx
      exact hx
    simp [ReadGeoPDF.erratum, dictKeys_dictSet, hd1]

/-- Witness for C9 at a concrete input: raster view fails on one side,
vector view fails on the other; the retained raster field is `num_cols`. -/
theorem C9_amended_witness :
    ReadGeoPDF.run envX (Except.error "RuntimeError") srsGeogProj (Except.ok vdsOne)
      "/data/a.pdf" ".pdf" txtStd "None" ""
      = ReadGeoPDF.run envX (Except.error "RuntimeError") srsGeogProj (Except.ok vdsEmpty)
        "/data/a.pdf" ".pdf" txtStd "None" "" ∧
    dictKeys (ReadGeoPDF.run envX (Except.error "RuntimeError") srsGeogProj
      (Except.ok vdsOne) "/data/a.pdf" ".pdf" txtStd "None" "").dico
      = ["name", "folder", "error"] ∧
    ReadGeoPDF.run envX (Except.ok (some dsBands1)) srsGeogProj
      (Except.error "OGRError") "/data/a.pdf" ".pdf" txtStd "None" ""
      = ⟨ReadGeoPDF.erratum
          (ReadGeoPDF.rasterPhase envX dsBands1 srsGeogProj "/data/a.pdf" ".pdf"
            txtStd "None" "").1 "/data/a.pdf" "err_corrupt", 1, Option.none⟩ ∧
    dictGet (ReadGeoPDF.run envX (Except.ok (some dsBands1)) srsGeogProj
      (Except.error "OGRError") "/data/a.pdf" ".pdf" txtStd "None" "").dico "num_cols"
      = dictGet (ReadGeoPDF.rasterPhase envX dsBands1 srsGeogProj "/data/a.pdf" ".pdf"
          txtStd "None" "").1 "num_cols" ∧
    "layers_count" ∉ dictKeys (ReadGeoPDF.run envX (Except.ok (some dsBands1))
      srsGeogProj (Except.error "OGRError") "/data/a.pdf" ".pdf" txtStd "None" "").dico :=
  C9_amended envX srsGeogProj "/data/a.pdf" ".pdf" txtStd "None" "" "RuntimeError"
    "OGRError" vdsOne vdsEmpty dsBands1
    (ReadGeoPDF.rasterPhase envX dsBands1 srsGeogProj "/data/a.pdf" ".pdf"
      txtStd "None" "").1 "num_cols" rfl (by decide) (by decide) (by decide)

/-! ## The format classifier (DicoGIS.ligeofiles, DicoShapes.ligeofiles) -/

/-- One `os.walk` triple: directory path, subdirectory names, file names. -/
structure WalkEntry where
  root : String
  dirs : List String
  files : List String

/-- `os.path.abspath`: the walk roots of this model are absolute and
normalised, on which abspath is the identity. -/
def pyAbspath (p : String) : String := p

/-- `self.li_raster_formats` (DicoGIS.py line 144). -/
def li_raster_formats : List String := [".ecw", ".tif", ".jp2"]

/-- `os.path.isfile` against the modelled filesystem. -/
def isfileFS (fs : List String) (p : String) : Bool := fs.contains p

/-- The Shapefile branch guard of DicoGIS.ligeofiles (lines 528-531): the
`.shp` extension is matched on the lower-cased path, each sidecar is probed
exactly twice — once all-lower-case, once all-upper-case. -/
def shpCondGIS (fs : List String) (full_path : String) : Bool :=
  (pyLower (pySplitextExt (pyLower full_path)) == ".shp")
  && (isfileFS fs (pyDropRight 4 full_path ++ ".dbf")
      || isfileFS fs (pyDropRight 4 full_path ++ ".DBF"))
  && (isfileFS fs (pyDropRight 4 full_path ++ ".shx")
      || isfileFS fs (pyDropRight 4 full_path ++ ".SHX"))
  && (isfileFS fs (pyDropRight 4 full_path ++ ".prj")
      || isfileFS fs (pyDropRight 4 full_path ++ ".PRJ"))

/-- The MapInfo branch guard (lines 535-538). -/
def tabCondGIS (fs : List String) (full_path : String) : Bool :=
  (pySplitextExt (pyLower full_path) == ".tab")
  && (isfileFS fs (pyDropRight 4 full_path ++ ".dat")
      || isfileFS fs (pyDropRight 4 full_path ++ ".DAT"))
  && (isfileFS fs (pyDropRight 4 full_path ++ ".map")
      || isfileFS fs (pyDropRight 4 full_path ++ ".MAP"))
  && (isfileFS fs (pyDropRight 4 full_path ++ ".id")
      || isfileFS fs (pyDropRight 4 full_path ++ ".ID"))

def kmlCondGIS (full_path : String) : Bool :=
  pySplitextExt (pyLower full_path) == ".kml"

def gmlCondGIS (full_path : String) : Bool :=
  pySplitextExt (pyLower full_path) == ".gml"

def geojCondGIS (full_path : String) : Bool :=
  pySplitextExt (pyLower full_path) == ".geojson"

def rasterCondGIS (full_path : String) : Bool :=
  li_raster_formats.contains (pySplitextExt (pyLower full_path))

/-- The `.gdb` test on directory names (line 513). -/
def gdbCondGIS (full_path : String) : Bool :=
  pyLower (pyTakeLast 4 full_path) == ".gdb"

/-- The per-format path lists of the DicoGIS instance, plus the directory
counter. -/
structure GISLists where
  li_shp : List String
  li_tab : List String
  li_kml : List String
  li_gml : List String
  li_geoj : List String
  li_raster : List String
  li_gdb : List String
  num_folders : Nat

/-- A fresh DicoGIS instance (initialisation lines 137-144). -/
def gisInit : GISLists :=
  { li_shp := [], li_tab := [], li_kml := [], li_gml := [], li_geoj := [],
    li_raster := [], li_gdb := [], num_folders := 0 }

/-- The if/elif chain of the file loop (DicoGIS.ligeofiles lines 527-559). -/
def DicoGIS.fileStep (fs : List String) (st : GISLists) (full_path : String) : GISLists :=
  if shpCondGIS fs full_path then { st with li_shp := st.li_shp ++ [full_path] }
  else if tabCondGIS fs full_path then { st with li_tab := st.li_tab ++ [full_path] }
  else if kmlCondGIS full_path then { st with li_kml := st.li_kml ++ [full_path] }
  else if gmlCondGIS full_path then { st with li_gml := st.li_gml ++ [full_path] }
  else if geojCondGIS full_path then { st with li_geoj := st.li_geoj ++ [full_path] }
  else if rasterCondGIS full_path then { st with li_raster := st.li_raster ++ [full_path] }
  else st

/-- The directory loop body (lines 505-518). -/
def DicoGIS.dirStep (st : GISLists) (full_path : String) : GISLists :=
  if gdbCondGIS full_path then { st with li_gdb := st.li_gdb ++ [pyAbspath full_path] }
  else st

/-- The body of the walk loop (lines 503-559): counts the subdirectories,
runs the `.gdb` test on each subdirectory, then the file chain on each
file. -/
def DicoGIS.entryStep (fs : List String) (st : GISLists) (e : WalkEntry) : GISLists :=
  let st := { st with num_folders := st.num_folders + e.dirs.length }
  let st := e.dirs.foldl (fun st dd => DicoGIS.dirStep st (pyJoin e.root dd)) st
  e.files.foldl (fun st f => DicoGIS.fileStep fs st (pyJoin e.root f)) st

/-- `DicoGIS.ligeofiles` (lines 488-596): resets the six file-format lists
(NOT `li_gdb`, and `num_folders` keeps accumulating), walks, then sorts the
six file-format lists (`li_gdb` is left as appended).  The
UnicodeDecodeError fallback of the path join is outside the model (paths
arrive decoded), and GUI/progress calls are effect-free here. -/
def DicoGIS.ligeofiles (fs : List String) (walk : List WalkEntry)
    (st : GISLists) : GISLists :=
  let st := { st with li_shp := [], li_tab := [], li_kml := [], li_gml := [],
                      li_geoj := [], li_raster := [] }
  let st := walk.foldl (DicoGIS.entryStep fs) st
  { st with
    li_shp := pySort st.li_shp, li_tab := pySort st.li_tab,
    li_raster := pySort st.li_raster, li_kml := pySort st.li_kml,
    li_gml := pySort st.li_gml, li_geoj := pySort st.li_geoj }

/-- A Python list that `ligeofiles` may have turned into a tuple; `append`
on a tuple raises `AttributeError`. -/
structure PySeq where
  items : List String
  isTuple : Bool
deriving DecidableEq

def PySeq.push (s : PySeq) (x : String) : Except String PySeq :=
  if s.isTuple then Except.error "AttributeError"
  else Except.ok { s with items := s.items ++ [x] }

/-- The two path sequences of the DicoShapes instance. -/
structure ShapesLists where
  li_shp : PySeq
  li_tab : PySeq
deriving DecidableEq

instance : DecidableEq (Except String ShapesLists) := fun a b =>
  match a, b with
  | Except.error x, Except.error y =>
    if h : x = y then isTrue (by rw [h]) else isFalse (by simp [h])
  | Except.ok x, Except.ok y =>
    if h : x = y then isTrue (by rw [h]) else isFalse (by simp [h])
  | Except.error _, Except.ok _ => isFalse (by simp)
  | Except.ok _, Except.error _ => isFalse (by simp)

/-- A fresh DicoShapes instance (initialisation lines 61-62: plain lists). -/
def shapesInit : ShapesLists :=
  { li_shp := { items := [], isTuple := false },
    li_tab := { items := [], isTuple := false } }

/-- The Shapefile guard of DicoShapes.ligeofiles (lines 173-176): the
extension test is case-SENSITIVE and only lower-case sidecars are probed. -/
def shpCondShapes (fs : List String) (full_path : String) : Bool :=
  (pySplitextExt full_path == ".shp")
  && isfileFS fs (pyDropRight 4 full_path ++ ".dbf")
  && isfileFS fs (pyDropRight 4 full_path ++ ".shx")
  && isfileFS fs (pyDropRight 4 full_path ++ ".prj")

/-- The MapInfo guard (lines 179-182). -/
def tabCondShapes (fs : List String) (full_path : String) : Bool :=
  (pySplitextExt full_path == ".tab")
  && isfileFS fs (pyDropRight 4 full_path ++ ".dat")
  && isfileFS fs (pyDropRight 4 full_path ++ ".map")
  && isfileFS fs (pyDropRight 4 full_path ++ ".id")

def DicoShapes.fileStep (fs : List String) (st : ShapesLists) (full_path : String) :
    Except String ShapesLists :=
  if shpCondShapes fs full_path then
    match st.li_shp.push full_path with
    | Except.error e => Except.error e
    | Except.ok sq => Except.ok { st with li_shp := sq }
  else if tabCondShapes fs full_path then
    match st.li_tab.push full_path with
    | Except.error e => Except.error e
    | Except.ok sq => Except.ok { st with li_tab := sq }
  else Except.ok st

/-- `DicoShapes.ligeofiles` (lines 166-191): appends into the instance
sequences WITHOUT resetting them, then sorts and converts them to tuples. -/
def DicoShapes.ligeofiles (fs : List String) (walk : List WalkEntry)
    (st : ShapesLists) : Except String ShapesLists :=
  match walk.foldlM (fun st e =>
      e.files.foldlM (fun st i => DicoShapes.fileStep fs st (pyJoin e.root i)) st) st with
  | Except.error e => Except.error e
  | Except.ok st =>
    Except.ok { li_shp := { items := pySort st.li_shp.items, isTuple := true },
                li_tab := { items := pySort st.li_tab.items, isTuple := true } }

/-- All file paths a walk presents to the classifier, in traversal order. -/
def collectFiles (walk : List WalkEntry) : List String :=
  walk.flatMap (fun e => e.files.map (pyJoin e.root))

/-- All directory paths a walk presents to the classifier. -/
def collectDirs (walk : List WalkEntry) : List String :=
  walk.flatMap (fun e => e.dirs.map (pyJoin e.root))

/-- The effective guard of each elif branch (the branch runs only when every
earlier test failed). -/
def tabGuardGIS (fs : List String) (f : String) : Bool :=
  !shpCondGIS fs f && tabCondGIS fs f

def kmlGuardGIS (fs : List String) (f : String) : Bool :=
  !shpCondGIS fs f && !tabCondGIS fs f && kmlCondGIS f

def gmlGuardGIS (fs : List String) (f : String) : Bool :=
  !shpCondGIS fs f && !tabCondGIS fs f && !kmlCondGIS f && gmlCondGIS f

def geojGuardGIS (fs : List String) (f : String) : Bool :=
  !shpCondGIS fs f && !tabCondGIS fs f && !kmlCondGIS f && !gmlCondGIS f
  && geojCondGIS f

def rasterGuardGIS (fs : List String) (f : String) : Bool :=
  !shpCondGIS fs f && !tabCondGIS fs f && !kmlCondGIS f && !gmlCondGIS f
  && !geojCondGIS f && rasterCondGIS f

def tabGuardShapes (fs : List String) (f : String) : Bool :=
  !shpCondShapes fs f && tabCondShapes fs f

/-! ## Characterisation of the DicoGIS classifier loops -/

theorem dirStep_fields (st : GISLists) (p : String) :
    (DicoGIS.dirStep st p).li_shp = st.li_shp ∧
    (DicoGIS.dirStep st p).li_tab = st.li_tab ∧
    (DicoGIS.dirStep st p).li_kml = st.li_kml ∧
    (DicoGIS.dirStep st p).li_gml = st.li_gml ∧
    (DicoGIS.dirStep st p).li_geoj = st.li_geoj ∧
    (DicoGIS.dirStep st p).li_raster = st.li_raster ∧
    (DicoGIS.dirStep st p).num_folders = st.num_folders := by
  unfold DicoGIS.dirStep
  split_ifs <;> exact ⟨rfl, rfl, rfl, rfl, rfl, rfl, rfl⟩

theorem dirStep_li_gdb (st : GISLists) (p : String) :
    (DicoGIS.dirStep st p).li_gdb
      = st.li_gdb ++ (if gdbCondGIS p = true then [pyAbspath p] else []) := by
  unfold DicoGIS.dirStep
  split_ifs <;> simp

theorem dirFold_fields (dirs : List String) (j : String → String) (st : GISLists) :
    ((dirs.foldl (fun st dd => DicoGIS.dirStep st (j dd)) st).li_shp = st.li_shp ∧
     (dirs.foldl (fun st dd => DicoGIS.dirStep st (j dd)) st).li_tab = st.li_tab ∧
     (dirs.foldl (fun st dd => DicoGIS.dirStep st (j dd)) st).li_kml = st.li_kml ∧
     (dirs.foldl (fun st dd => DicoGIS.dirStep st (j dd)) st).li_gml = st.li_gml ∧
     (dirs.foldl (fun st dd => DicoGIS.dirStep st (j dd)) st).li_geoj = st.li_geoj ∧
     (dirs.foldl (fun st dd => DicoGIS.dirStep st (j dd)) st).li_raster = st.li_raster ∧
     (dirs.foldl (fun st dd => DicoGIS.dirStep st (j dd)) st).num_folders = st.num_folders) := by
  induction dirs generalizing st with
  | nil => exact ⟨rfl, rfl, rfl, rfl, rfl, rfl, rfl⟩
  | cons d rest ih =>
    obtain ⟨a1, a2, a3, a4, a5, a6, a7⟩ := dirStep_fields st (j d)
    obtain ⟨b1, b2, b3, b4, b5, b6, b7⟩ := ih (DicoGIS.dirStep st (j d))
    exact ⟨b1.trans a1, b2.trans a2, b3.trans a3, b4.trans a4, b5.trans a5,
      b6.trans a6, b7.trans a7⟩

theorem dirFold_li_gdb (dirs : List String) (j : String → String) (st : GISLists) :
    (dirs.foldl (fun st dd => DicoGIS.dirStep st (j dd)) st).li_gdb
      = st.li_gdb ++ ((dirs.map j).filter gdbCondGIS).map pyAbspath := by
  induction dirs generalizing st with
  | nil => simp
  | cons d rest ih =>
    rw [List.foldl_cons, ih, dirStep_li_gdb, List.map_cons, List.filter_cons]
    split_ifs <;> simp

theorem fileStep_li_shp (fs : List String) (st : GISLists) (f : String) :
    (DicoGIS.fileStep fs st f).li_shp
      = st.li_shp ++ (if shpCondGIS fs f = true then [f] else []) := by
  unfold DicoGIS.fileStep
  split_ifs <;> simp_all

theorem fileStep_li_tab (fs : List String) (st : GISLists) (f : String) :
    (DicoGIS.fileStep fs st f).li_tab
      = st.li_tab ++ (if tabGuardGIS fs f = true then [f] else []) := by
  unfold DicoGIS.fileStep tabGuardGIS
  split_ifs <;> simp_all

theorem fileStep_li_kml (fs : List String) (st : GISLists) (f : String) :
    (DicoGIS.fileStep fs st f).li_kml
      = st.li_kml ++ (if kmlGuardGIS fs f = true then [f] else []) := by
  unfold DicoGIS.fileStep kmlGuardGIS
  split_ifs <;> simp_all

theorem fileStep_li_gml (fs : List String) (st : GISLists) (f : String) :
    (DicoGIS.fileStep fs st f).li_gml
      = st.li_gml ++ (if gmlGuardGIS fs f = true then [f] else []) := by
  unfold DicoGIS.fileStep gmlGuardGIS
  split_ifs <;> simp_all

theorem fileStep_li_geoj (fs : List String) (st : GISLists) (f : String) :
    (DicoGIS.fileStep fs st f).li_geoj
      = st.li_geoj ++ (if geojGuardGIS fs f = true then [f] else []) := by
  unfold DicoGIS.fileStep geojGuardGIS
  split_ifs <;> simp_all

theorem fileStep_li_raster (fs : List String) (st : GISLists) (f : String) :
    (DicoGIS.fileStep fs st f).li_raster
      = st.li_raster ++ (if rasterGuardGIS fs f = true then [f] else []) := by
  unfold DicoGIS.fileStep rasterGuardGIS
  split_ifs <;> simp_all

theorem fileStep_fields (fs : List String) (st : GISLists) (f : String) :
    (DicoGIS.fileStep fs st f).li_gdb = st.li_gdb ∧
    (DicoGIS.fileStep fs st f).num_folders = st.num_folders := by
  unfold DicoGIS.fileStep
  split_ifs <;> exact ⟨rfl, rfl⟩

theorem fileFold_li_shp (fs : List String) (fulls : List String) (st : GISLists) :
    (fulls.foldl (DicoGIS.fileStep fs) st).li_shp
      = st.li_shp ++ fulls.filter (shpCondGIS fs) := by
  induction fulls generalizing st with
  | nil => simp
  | cons f rest ih =>
    rw [List.foldl_cons, ih, fileStep_li_shp, List.filter_cons]
    split_ifs <;> simp

theorem fileFold_li_tab (fs : List String) (fulls : List String) (st : GISLists) :
    (fulls.foldl (DicoGIS.fileStep fs) st).li_tab
      = st.li_tab ++ fulls.filter (tabGuardGIS fs) := by
  induction fulls generalizing st with
  | nil => simp
  | cons f rest ih =>
    rw [List.foldl_cons, ih, fileStep_li_tab, List.filter_cons]
    split_ifs <;> simp

theorem fileFold_li_kml (fs : List String) (fulls : List String) (st : GISLists) :
    (fulls.foldl (DicoGIS.fileStep fs) st).li_kml
      = st.li_kml ++ fulls.filter (kmlGuardGIS fs) := by
  induction fulls generalizing st with
  | nil => simp
  | cons f rest ih =>
    rw [List.foldl_cons, ih, fileStep_li_kml, List.filter_cons]
    split_ifs <;> simp

theorem fileFold_li_gml (fs : List String) (fulls : List String) (st : GISLists) :
    (fulls.foldl (DicoGIS.fileStep fs) st).li_gml
      = st.li_gml ++ fulls.filter (gmlGuardGIS fs) := by
  induction fulls generalizing st with
  | nil => simp
  | cons f rest ih =>
    rw [List.foldl_cons, ih, fileStep_li_gml, List.filter_cons]
    split_ifs <;> simp

theorem fileFold_li_geoj (fs : List String) (fulls : List String) (st : GISLists) :
    (fulls.foldl (DicoGIS.fileStep fs) st).li_geoj
      = st.li_geoj ++ fulls.filter (geojGuardGIS fs) := by
  induction fulls generalizing st with
  | nil => simp
  | cons f rest ih =>
    rw [List.foldl_cons, ih, fileStep_li_geoj, List.filter_cons]
    split_ifs <;> simp

theorem fileFold_li_raster (fs : List String) (fulls : List String) (st : GISLists) :
    (fulls.foldl (DicoGIS.fileStep fs) st).li_raster
      = st.li_raster ++ fulls.filter (rasterGuardGIS fs) := by
  induction fulls generalizing st with
  | nil => simp
  | cons f rest ih =>
    rw [List.foldl_cons, ih, fileStep_li_raster, List.filter_cons]
    split_ifs <;> simp

theorem fileFold_fields (fs : List String) (fulls : List String) (st : GISLists) :
    (fulls.foldl (DicoGIS.fileStep fs) st).li_gdb = st.li_gdb ∧
    (fulls.foldl (DicoGIS.fileStep fs) st).num_folders = st.num_folders := by
  induction fulls generalizing st with
  | nil => exact ⟨rfl, rfl⟩
  | cons f rest ih =>
    obtain ⟨a1, a2⟩ := fileStep_fields fs st f
    obtain ⟨b1, b2⟩ := ih (DicoGIS.fileStep fs st f)
    exact ⟨b1.trans a1, b2.trans a2⟩

theorem entryStep_li_shp (fs : List String) (st : GISLists) (e : WalkEntry) :
    (DicoGIS.entryStep fs st e).li_shp
      = st.li_shp ++ (e.files.map (pyJoin e.root)).filter (shpCondGIS fs) := by
  unfold DicoGIS.entryStep
  rw [← List.foldl_map, fileFold_li_shp]
  congr 1
  exact (dirFold_fields e.dirs (pyJoin e.root) _).1

theorem entryStep_li_tab (fs : List String) (st : GISLists) (e : WalkEntry) :
    (DicoGIS.entryStep fs st e).li_tab
      = st.li_tab ++ (e.files.map (pyJoin e.root)).filter (tabGuardGIS fs) := by
  unfold DicoGIS.entryStep
  rw [← List.foldl_map, fileFold_li_tab]
  congr 1
  exact (dirFold_fields e.dirs (pyJoin e.root) _).2.1

theorem entryStep_li_kml (fs : List String) (st : GISLists) (e : WalkEntry) :
    (DicoGIS.entryStep fs st e).li_kml
      = st.li_kml ++ (e.files.map (pyJoin e.root)).filter (kmlGuardGIS fs) := by
  unfold DicoGIS.entryStep
  rw [← List.foldl_map, fileFold_li_kml]
  congr 1
  exact (dirFold_fields e.dirs (pyJoin e.root) _).2.2.1

theorem entryStep_li_gml (fs : List String) (st : GISLists) (e : WalkEntry) :
    (DicoGIS.entryStep fs st e).li_gml
      = st.li_gml ++ (e.files.map (pyJoin e.root)).filter (gmlGuardGIS fs) := by
  unfold DicoGIS.entryStep
  rw [← List.foldl_map, fileFold_li_gml]
  congr 1
  exact (dirFold_fields e.dirs (pyJoin e.root) _).2.2.2.1

theorem entryStep_li_geoj (fs : List String) (st : GISLists) (e : WalkEntry) :
    (DicoGIS.entryStep fs st e).li_geoj
      = st.li_geoj ++ (e.files.map (pyJoin e.root)).filter (geojGuardGIS fs) := by
  unfold DicoGIS.entryStep
  rw [← List.foldl_map, fileFold_li_geoj]
  congr 1
  exact (dirFold_fields e.dirs (pyJoin e.root) _).2.2.2.2.1

theorem entryStep_li_raster (fs : List String) (st : GISLists) (e : WalkEntry) :
    (DicoGIS.entryStep fs st e).li_raster
      = st.li_raster ++ (e.files.map (pyJoin e.root)).filter (rasterGuardGIS fs) := by
  unfold DicoGIS.entryStep
  rw [← List.foldl_map, fileFold_li_raster]
  congr 1
  exact (dirFold_fields e.dirs (pyJoin e.root) _).2.2.2.2.2.1

theorem entryStep_li_gdb (fs : List String) (st : GISLists) (e : WalkEntry) :
    (DicoGIS.entryStep fs st e).li_gdb
      = st.li_gdb ++ ((e.dirs.map (pyJoin e.root)).filter gdbCondGIS).map pyAbspath := by
  unfold DicoGIS.entryStep
  rw [← List.foldl_map, (fileFold_fields fs _ _).1, dirFold_li_gdb]

theorem walkFold_li_shp (fs : List String) (walk : List WalkEntry) (st : GISLists) :
    (walk.foldl (DicoGIS.entryStep fs) st).li_shp
      = st.li_shp ++ (collectFiles walk).filter (shpCondGIS fs) := by
  induction walk generalizing st with
  | nil => simp [collectFiles]
  | cons e rest ih =>
    rw [List.foldl_cons, ih, entryStep_li_shp]
    simp [collectFiles, List.filter_append]

theorem walkFold_li_tab (fs : List String) (walk : List WalkEntry) (st : GISLists) :
    (walk.foldl (DicoGIS.entryStep fs) st).li_tab
      = st.li_tab ++ (collectFiles walk).filter (tabGuardGIS fs) := by
  induction walk generalizing st with
  | nil => simp [collectFiles]
  | cons e rest ih =>
    rw [List.foldl_cons, ih, entryStep_li_tab]
    simp [collectFiles, List.filter_append]

theorem walkFold_li_kml (fs : List String) (walk : List WalkEntry) (st : GISLists) :
    (walk.foldl (DicoGIS.entryStep fs) st).li_kml
      = st.li_kml ++ (collectFiles walk).filter (kmlGuardGIS fs) := by
  induction walk generalizing st with
  | nil => simp [collectFiles]
  | cons e rest ih =>
    rw [List.foldl_cons, ih, entryStep_li_kml]
    simp [collectFiles, List.filter_append]

theorem walkFold_li_gml (fs : List String) (walk : List WalkEntry) (st : GISLists) :
    (walk.foldl (DicoGIS.entryStep fs) st).li_gml
      = st.li_gml ++ (collectFiles walk).filter (gmlGuardGIS fs) := by
  induction walk generalizing st with
  | nil => simp [collectFiles]
  | cons e rest ih =>
    rw [List.foldl_cons, ih, entryStep_li_gml]
    simp [collectFiles, List.filter_append]

theorem walkFold_li_geoj (fs : List String) (walk : List WalkEntry) (st : GISLists) :
    (walk.foldl (DicoGIS.entryStep fs) st).li_geoj
      = st.li_geoj ++ (collectFiles walk).filter (geojGuardGIS fs) := by
  induction walk generalizing st with
  | nil => simp [collectFiles]
  | cons e rest ih =>
    rw [List.foldl_cons, ih, entryStep_li_geoj]
    simp [collectFiles, List.filter_append]

theorem walkFold_li_raster (fs : List String) (walk : List WalkEntry) (st : GISLists) :
    (walk.foldl (DicoGIS.entryStep fs) st).li_raster
      = st.li_raster ++ (collectFiles walk).filter (rasterGuardGIS fs) := by
  induction walk generalizing st with
  | nil => simp [collectFiles]
  | cons e rest ih =>
    rw [List.foldl_cons, ih, entryStep_li_raster]
    simp [collectFiles, List.filter_append]

theorem walkFold_li_gdb (fs : List String) (walk : List WalkEntry) (st : GISLists) :
    (walk.foldl (DicoGIS.entryStep fs) st).li_gdb
      = st.li_gdb ++ ((collectDirs walk).filter gdbCondGIS).map pyAbspath := by
  induction walk generalizing st with
  | nil => simp [collectDirs]
  | cons e rest ih =>
    rw [List.foldl_cons, ih, entryStep_li_gdb]
    simp [collectDirs, List.filter_append]

theorem ligeofiles_li_shp (fs : List String) (walk : List WalkEntry) (st : GISLists) :
    (DicoGIS.ligeofiles fs walk st).li_shp
      = pySort ((collectFiles walk).filter (shpCondGIS fs)) := by
  unfold DicoGIS.ligeofiles
  simp [walkFold_li_shp]

theorem ligeofiles_li_tab (fs : List String) (walk : List WalkEntry) (st : GISLists) :
    (DicoGIS.ligeofiles fs walk st).li_tab
      = pySort ((collectFiles walk).filter (tabGuardGIS fs)) := by
  unfold DicoGIS.ligeofiles
  simp [walkFold_li_tab]

theorem ligeofiles_li_kml (fs : List String) (walk : List WalkEntry) (st : GISLists) :
    (DicoGIS.ligeofiles fs walk st).li_kml
      = pySort ((collectFiles walk).filter (kmlGuardGIS fs)) := by
  unfold DicoGIS.ligeofiles
  simp [walkFold_li_kml]

theorem ligeofiles_li_gml (fs : List String) (walk : List WalkEntry) (st : GISLists) :
    (DicoGIS.ligeofiles fs walk st).li_gml
      = pySort ((collectFiles walk).filter (gmlGuardGIS fs)) := by
  unfold DicoGIS.ligeofiles
  simp [walkFold_li_gml]

theorem ligeofiles_li_geoj (fs : List String) (walk : List WalkEntry) (st : GISLists) :
    (DicoGIS.ligeofiles fs walk st).li_geoj
      = pySort ((collectFiles walk).filter (geojGuardGIS fs)) := by
  unfold DicoGIS.ligeofiles
  simp [walkFold_li_geoj]

theorem ligeofiles_li_raster (fs : List String) (walk : List WalkEntry) (st : GISLists) :
    (DicoGIS.ligeofiles fs walk st).li_raster
      = pySort ((collectFiles walk).filter (rasterGuardGIS fs)) := by
  unfold DicoGIS.ligeofiles
  simp [walkFold_li_raster]

theorem ligeofiles_li_gdb (fs : List String) (walk : List WalkEntry) (st : GISLists) :
    (DicoGIS.ligeofiles fs walk st).li_gdb
      = st.li_gdb ++ ((collectDirs walk).filter gdbCondGIS).map pyAbspath := by
  unfold DicoGIS.ligeofiles
  simp only [walkFold_li_gdb]

/-! ## Characterisation of the DicoShapes classifier loop -/

theorem shapes_fileStep_ok (fs : List String) (i1 i2 : List String) (f : String) :
    DicoShapes.fileStep fs
      { li_shp := { items := i1, isTuple := false },
        li_tab := { items := i2, isTuple := false } } f
      = Except.ok
      { li_shp := { items := i1 ++ (if shpCondShapes fs f = true then [f] else []),
                    isTuple := false },
        li_tab := { items := i2 ++ (if tabGuardShapes fs f = true then [f] else []),
                    isTuple := false } } := by
  unfold DicoShapes.fileStep PySeq.push tabGuardShapes
  split_ifs <;> simp_all

theorem shapes_fileFold_ok (fs : List String) (fulls : List String)
    (i1 i2 : List String) :
    fulls.foldlM (DicoShapes.fileStep fs)
      ({ li_shp := { items := i1, isTuple := false },
         li_tab := { items := i2, isTuple := false } } : ShapesLists)
      = Except.ok
      { li_shp := { items := i1 ++ fulls.filter (shpCondShapes fs), isTuple := false },
        li_tab := { items := i2 ++ fulls.filter (tabGuardShapes fs), isTuple := false } } := by
  induction fulls generalizing i1 i2 with
  | nil => simp [List.foldlM_nil]; rfl
  | cons f rest ih =>
    rw [List.foldlM_cons, shapes_fileStep_ok]
    show rest.foldlM (DicoShapes.fileStep fs) _ = _
    rw [ih, List.filter_cons, List.filter_cons]
    split_ifs <;> simp

theorem shapes_walkFold_ok (fs : List String) (walk : List WalkEntry)
    (i1 i2 : List String) :
    walk.foldlM (fun st e =>
        e.files.foldlM (fun st i => DicoShapes.fileStep fs st (pyJoin e.root i)) st)
      ({ li_shp := { items := i1, isTuple := false },
         li_tab := { items := i2, isTuple := false } } : ShapesLists)
      = Except.ok
      { li_shp := { items := i1 ++ (collectFiles walk).filter (shpCondShapes fs),
                    isTuple := false },
        li_tab := { items := i2 ++ (collectFiles walk).filter (tabGuardShapes fs),
                    isTuple := false } } := by
  induction walk generalizing i1 i2 with
  | nil => simp [List.foldlM_nil, collectFiles]; rfl
  | cons e rest ih =>
    rw [List.foldlM_cons, ← List.foldlM_map (pyJoin e.root) (DicoShapes.fileStep fs) e.files]
    rw [shapes_fileFold_ok]
    show rest.foldlM _ _ = _
    rw [ih]
    simp [collectFiles, List.filter_append, List.append_assoc]

theorem shapes_ligeofiles_spec (fs : List String) (walk : List WalkEntry)
    (i1 i2 : List String) :
    DicoShapes.ligeofiles fs walk
      { li_shp := { items := i1, isTuple := false },
        li_tab := { items := i2, isTuple := false } }
      = Except.ok
      { li_shp := { items := pySort (i1 ++ (collectFiles walk).filter (shpCondShapes fs)),
                    isTuple := true },
        li_tab := { items := pySort (i2 ++ (collectFiles walk).filter (tabGuardShapes fs)),
                    isTuple := true } } := by
  unfold DicoShapes.ligeofiles
  rw [shapes_walkFold_ok]

/-! ## Claims about the format classifier (C5, C6, C7) -/

/-- A directory holding a shapefile whose `.dbf` sidecar uses mixed case. -/
def fsMixed : List String := ["/t/a.shp", "/t/a.Dbf", "/t/a.shx", "/t/a.prj"]

def walkMixed : List WalkEntry := [{ root := "/t", dirs := [], files := ["a.shp"] }]

/-- Modelled from the spec: "the extension comparison being case-insensitive
(any letter-case variant of each sidecar extension is accepted)" — a sidecar
exists if any file of the filesystem equals it up to letter case. -/
def shpSidecarsSpecInsensitive (fs : List String) (f : String) : Bool :=
  (fs.any (fun p => pyLower p == pyLower (pyDropRight 4 f ++ ".dbf")))
  && (fs.any (fun p => pyLower p == pyLower (pyDropRight 4 f ++ ".shx")))
  && (fs.any (fun p => pyLower p == pyLower (pyDropRight 4 f ++ ".prj")))

/-- A directory holding a complete, all-lower-case shapefile. -/
def fsShape : List String := ["/t/b.shp", "/t/b.dbf", "/t/b.shx", "/t/b.prj"]

def walkShape : List WalkEntry := [{ root := "/t", dirs := [], files := ["b.shp"] }]

/-- A walk meeting two File Geodatabase directories in descending name
order. -/
def walkGdb : List WalkEntry := [{ root := "/r", dirs := ["z.gdb", "a.gdb"], files := [] }]

/-- Claim C5, counterexample: the claim says any letter-case variant of each
sidecar extension is accepted.  `/t/a.shp` with sidecars `a.Dbf`, `a.shx`,
`a.prj` satisfies the spec's case-insensitive sidecar rule, yet the DicoGIS
classifier probes only the all-lower-case and all-upper-case spellings and
excludes the file. -/
theorem C5_mixed_case_counterexample :
    shpSidecarsSpecInsensitive fsMixed "/t/a.shp" = true ∧
    pyLower (pySplitextExt (pyLower "/t/a.shp")) = ".shp" ∧
    "/t/a.shp" ∉ (DicoGIS.ligeofiles fsMixed walkMixed gisInit).li_shp ∧
    (DicoGIS.ligeofiles fsMixed walkMixed gisInit).li_shp = [] := by
  refine ⟨by decide, by decide, by decide, by decide⟩

/-- Claim C5, amended: a `.shp` file found by the DicoGIS traversal is a
Shapefile candidate iff, for each of `.dbf`, `.shx`, `.prj`, the sibling
with that extension exactly all-lower-case or exactly all-upper-case exists
(mixed-case variants are not probed; the `.shp` extension itself is matched
case-insensitively).  The DicoShapes classifier is stricter still: the
`.shp` extension is matched case-sensitively and only all-lower-case
sidecars are probed.  A `.shp` with a partial sidecar set is simply not a
member — no error record exists in either classifier. -/
theorem C5_amended (fs : List String) (walk : List WalkEntry) (st : GISLists)
    (f : String) :
    (f ∈ (DicoGIS.ligeofiles fs walk st).li_shp ↔
      f ∈ collectFiles walk ∧
      pyLower (pySplitextExt (pyLower f)) = ".shp" ∧
      ((pyDropRight 4 f ++ ".dbf") ∈ fs ∨ (pyDropRight 4 f ++ ".DBF") ∈ fs) ∧
      ((pyDropRight 4 f ++ ".shx") ∈ fs ∨ (pyDropRight 4 f ++ ".SHX") ∈ fs) ∧
      ((pyDropRight 4 f ++ ".prj") ∈ fs ∨ (pyDropRight 4 f ++ ".PRJ") ∈ fs)) ∧
    (∀ i1 i2 : List String, ∃ res : ShapesLists,
      DicoShapes.ligeofiles fs walk
        { li_shp := { items := i1, isTuple := false },
          li_tab := { items := i2, isTuple := false } } = Except.ok res ∧
      (f ∈ res.li_shp.items ↔
        f ∈ i1 ∨ (f ∈ collectFiles walk ∧ pySplitextExt f = ".shp" ∧
          (pyDropRight 4 f ++ ".dbf") ∈ fs ∧ (pyDropRight 4 f ++ ".shx") ∈ fs ∧
          (pyDropRight 4 f ++ ".prj") ∈ fs))) := by
  constructor
  · rw [ligeofiles_li_shp]
    rw [show pySort = List.insertionSort pyStrLe from rfl, List.mem_insertionSort,
      List.mem_filter]
    simp [shpCondGIS, isfileFS, and_assoc]
  · intro i1 i2
    refine ⟨_, shapes_ligeofiles_spec fs walk i1 i2, ?_⟩
    rw [show pySort = List.insertionSort pyStrLe from rfl, List.mem_insertionSort,
      List.mem_append, List.mem_filter]
    simp [shpCondShapes, isfileFS, and_assoc]

/-- Claim C6, counterexample: the claim says each per-format candidate
sequence is sorted ascending; the File Geodatabase sequence is emitted in
traversal order and is not sorted. -/
theorem C6_gdb_unsorted_counterexample :
    (DicoGIS.ligeofiles [] walkGdb gisInit).li_gdb = ["/r/z.gdb", "/r/a.gdb"] ∧
    ¬ List.Sorted pyStrLe (DicoGIS.ligeofiles [] walkGdb gisInit).li_gdb ∧
    (DicoGIS.ligeofiles [] walkGdb gisInit).li_gdb
      ≠ pySort (DicoGIS.ligeofiles [] walkGdb gisInit).li_gdb := by
  refine ⟨by decide, by decide, by decide⟩

/-- Claim C6, amended: for the six single-main-file format sequences
(Shapefile, MapInfo, KML, GML, GeoJSON, raster) the claim holds — each
qualifying file appears exactly once whatever the traversal order, and the
sequence is sorted ascending — but the File Geodatabase sequence is exempt:
it is produced in traversal order (unsorted) and appended to whatever the
instance already held. -/
theorem C6_amended (fs : List String) (walk : List WalkEntry) (st : GISLists)
    (f : String) (hnd : (collectFiles walk).Nodup)
    (hmem : f ∈ collectFiles walk) :
    List.Sorted pyStrLe (DicoGIS.ligeofiles fs walk st).li_shp ∧
    List.Sorted pyStrLe (DicoGIS.ligeofiles fs walk st).li_tab ∧
    List.Sorted pyStrLe (DicoGIS.ligeofiles fs walk st).li_kml ∧
    List.Sorted pyStrLe (DicoGIS.ligeofiles fs walk st).li_gml ∧
    List.Sorted pyStrLe (DicoGIS.ligeofiles fs walk st).li_geoj ∧
    List.Sorted pyStrLe (DicoGIS.ligeofiles fs walk st).li_raster ∧
    (shpCondGIS fs f = true →
      List.count f (DicoGIS.ligeofiles fs walk st).li_shp = 1) ∧
    (tabGuardGIS fs f = true →
      List.count f (DicoGIS.ligeofiles fs walk st).li_tab = 1) ∧
    (kmlGuardGIS fs f = true →
      List.count f (DicoGIS.ligeofiles fs walk st).li_kml = 1) ∧
    (gmlGuardGIS fs f = true →
      List.count f (DicoGIS.ligeofiles fs walk st).li_gml = 1) ∧
    (geojGuardGIS fs f = true →
      List.count f (DicoGIS.ligeofiles fs walk st).li_geoj = 1) ∧
    (rasterGuardGIS fs f = true →
      List.count f (DicoGIS.ligeofiles fs walk st).li_raster = 1) ∧
    (DicoGIS.ligeofiles fs walk st).li_gdb
      = st.li_gdb ++ ((collectDirs walk).filter gdbCondGIS).map pyAbspath := by
  have countOne : ∀ g : String → Bool, g f = true →
      List.count f (pySort ((collectFiles walk).filter g)) = 1 := by
    intro g hg
    unfold pySort
    rw [(List.perm_insertionSort pyStrLe _).count_eq, List.count_filter hg]
    exact List.count_eq_one_of_mem hnd hmem
  refine ⟨?_, ?_, ?_, ?_, ?_, ?_, ?_, ?_, ?_, ?_, ?_, ?_, ligeofiles_li_gdb fs walk st⟩
  · rw [ligeofiles_li_shp]; exact List.sorted_insertionSort pyStrLe _
  · rw [ligeofiles_li_tab]; exact List.sorted_insertionSort pyStrLe _
  · rw [ligeofiles_li_kml]; exact List.sorted_insertionSort pyStrLe _
  · rw [ligeofiles_li_gml]; exact List.sorted_insertionSort pyStrLe _
  · rw [ligeofiles_li_geoj]; exact List.sorted_insertionSort pyStrLe _
  · rw [ligeofiles_li_raster]; exact List.sorted_insertionSort pyStrLe _
  · intro hg; rw [ligeofiles_li_shp]; exact countOne _ hg
  · intro hg; rw [ligeofiles_li_tab]; exact countOne _ hg
  · intro hg; rw [ligeofiles_li_kml]; exact countOne _ hg
  · intro hg; rw [ligeofiles_li_gml]; exact countOne _ hg
  · intro hg; rw [ligeofiles_li_geoj]; exact countOne _ hg
  · intro hg; rw [ligeofiles_li_raster]; exact countOne _ hg

/-- Witness for C6 at a concrete walk holding one complete shapefile. -/
theorem C6_amended_witness :
    (collectFiles walkShape).Nodup ∧
    "/t/b.shp" ∈ collectFiles walkShape ∧
    shpCondGIS fsShape "/t/b.shp" = true ∧
    List.count "/t/b.shp" (DicoGIS.ligeofiles fsShape walkShape gisInit).li_shp = 1 ∧
    List.Sorted pyStrLe (DicoGIS.ligeofiles fsShape walkShape gisInit).li_shp :=
  ⟨by decide, by decide, by decide,
    (C6_amended fsShape walkShape gisInit "/t/b.shp" (by decide) (by decide)).2.2.2.2.2.2.1
      (by decide),
    (C6_amended fsShape walkShape gisInit "/t/b.shp" (by decide) (by decide)).1⟩

/-- Claim C7, counterexample: running the DicoGIS classifier twice over an
unchanged tree doubles the File Geodatabase sequence (it is never reset). -/
theorem C7_gdb_accumulates_counterexample :
    (DicoGIS.ligeofiles [] walkGdb gisInit).li_gdb = ["/r/z.gdb", "/r/a.gdb"] ∧
    (DicoGIS.ligeofiles [] walkGdb (DicoGIS.ligeofiles [] walkGdb gisInit)).li_gdb
      = ["/r/z.gdb", "/r/a.gdb", "/r/z.gdb", "/r/a.gdb"] ∧
    (DicoGIS.ligeofiles [] walkGdb (DicoGIS.ligeofiles [] walkGdb gisInit)).li_gdb
      ≠ (DicoGIS.ligeofiles [] walkGdb gisInit).li_gdb := by
  refine ⟨by decide, by decide, by decide⟩

/-- Claim C7, amended: for the six file-format sequences DicoGIS's second
run over an unchanged tree reproduces the first run's output exactly (they
are reset at the start of each run); the File Geodatabase sequence instead
accumulates across runs, and DicoShapes's classifier cannot be run twice at
all — its first run turns the sequences into tuples, so the second run
raises AttributeError on the first qualifying file. -/
theorem C7_amended (fs : List String) (walk : List WalkEntry) (st : GISLists) :
    (DicoGIS.ligeofiles fs walk (DicoGIS.ligeofiles fs walk st)).li_shp
      = (DicoGIS.ligeofiles fs walk st).li_shp ∧
    (DicoGIS.ligeofiles fs walk (DicoGIS.ligeofiles fs walk st)).li_tab
      = (DicoGIS.ligeofiles fs walk st).li_tab ∧
    (DicoGIS.ligeofiles fs walk (DicoGIS.ligeofiles fs walk st)).li_kml
      = (DicoGIS.ligeofiles fs walk st).li_kml ∧
    (DicoGIS.ligeofiles fs walk (DicoGIS.ligeofiles fs walk st)).li_gml
      = (DicoGIS.ligeofiles fs walk st).li_gml ∧
    (DicoGIS.ligeofiles fs walk (DicoGIS.ligeofiles fs walk st)).li_geoj
      = (DicoGIS.ligeofiles fs walk st).li_geoj ∧
    (DicoGIS.ligeofiles fs walk (DicoGIS.ligeofiles fs walk st)).li_raster
      = (DicoGIS.ligeofiles fs walk st).li_raster ∧
    DicoShapes.ligeofiles fsShape walkShape shapesInit
      = Except.ok { li_shp := { items := ["/t/b.shp"], isTuple := true },
                    li_tab := { items := [], isTuple := true } } ∧
    DicoShapes.ligeofiles fsShape walkShape
      { li_shp := { items := ["/t/b.shp"], isTuple := true },
        li_tab := { items := [], isTuple := true } }
      = Except.error "AttributeError" := by
  refine ⟨?_, ?_, ?_, ?_, ?_, ?_, by decide, by decide⟩
  · rw [ligeofiles_li_shp, ligeofiles_li_shp]
  · rw [ligeofiles_li_tab, ligeofiles_li_tab]
  · rw [ligeofiles_li_kml, ligeofiles_li_kml]
  · rw [ligeofiles_li_gml, ligeofiles_li_gml]
  · rw [ligeofiles_li_geoj, ligeofiles_li_geoj]
  · rw [ligeofiles_li_raster, ligeofiles_li_raster]
